import Mathlib

/-!
# Verification of the PlumeActionStores action layer

Shallow embedding of the repository's Kafka/cloud-health action code
(`kafka/actions/jobs.py`, `kafka/actions/consumer_groups.py`,
`kafka/actions/topics.py`, `cloud_health/actions/specific.py`) and proofs
about it.  Remote HTTP calls (the `http_wrapper` module is not part of the
sources) are modelled as explicit oracle parameters: each call either raises
(`Except.error` with the exception text) or returns its decoded value.
Python exceptions are modelled with `Except`, Python `None` with `Option`.
-/

namespace PlumeActionStores

/-! ## Python string primitives used by the parsers -/

/-- The whitespace characters recognised by Python's `str.strip()` /
`str.split()` (space, tab, newline, carriage return, vertical tab, form feed). -/
def pyIsSpace (c : Char) : Bool :=
  c = ' ' || c = '\t' || c = '\n' || c = '\r' || c = '\x0b' || c = '\x0c'

/-- Python `str.strip()`: remove leading and trailing whitespace. -/
def pyStrip (s : String) : String :=
  String.mk (((s.data.dropWhile pyIsSpace).reverse.dropWhile pyIsSpace).reverse)

/-- Worker for `pySplitWS`: `tok` is the (reversed) token currently being read. -/
def pySplitWSAux : List Char → List Char → List String
  | [], [] => []
  | [], tok => [String.mk tok.reverse]
  | c :: cs, tok =>
    if pyIsSpace c then
      match tok with
      | [] => pySplitWSAux cs []
      | _ => String.mk tok.reverse :: pySplitWSAux cs []
    else pySplitWSAux cs (c :: tok)

/-- Python `str.split()` with no argument: split on runs of whitespace,
discarding empty tokens. -/
def pySplitWS (s : String) : List String :=
  pySplitWSAux s.data []

/-- Digit-run parser for `pyParseInt`: accumulates a value over digits,
allowing single underscores strictly between digits (Python 3 int literals). -/
def pyParseDigits : Nat → List Char → Option Nat
  | acc, [] => some acc
  | acc, c :: cs =>
    if c.isDigit then pyParseDigits (acc * 10 + (c.toNat - 48)) cs
    else if c = '_' then
      match cs with
      | c2 :: cs2 =>
        if c2.isDigit then pyParseDigits (acc * 10 + (c2.toNat - 48)) cs2
        else none
      | [] => none
    else none

/-- Python `int(s)` on an ASCII string: optional surrounding whitespace,
optional sign, then a non-empty digit run (underscores allowed between
digits).  `none` models `int` raising `ValueError`. -/
def pyParseInt (s : String) : Option Int :=
  match (pyStrip s).data with
  | '-' :: c :: cs =>
    if c.isDigit then (pyParseDigits (c.toNat - 48) cs).map (fun n => -(n : Int)) else none
  | '+' :: c :: cs =>
    if c.isDigit then (pyParseDigits (c.toNat - 48) cs).map (fun n => (n : Int)) else none
  | c :: cs =>
    if c.isDigit then (pyParseDigits (c.toNat - 48) cs).map (fun n => (n : Int)) else none
  | [] => none

/-- Python `s.split('\r\n')` on a character list: greedy left-to-right scan
for the two-character separator; empty pieces are kept.  `cur` is the
(reversed) piece currently being read. -/
def splitCRLFAux : List Char → List Char → List (List Char)
  | '\r' :: '\n' :: cs, cur => cur.reverse :: splitCRLFAux cs []
  | c :: cs, cur => splitCRLFAux cs (c :: cur)
  | [], cur => [cur.reverse]

/-- Python `s.split('\r')`: split on every carriage return, keeping empty
pieces. -/
def splitCRAux : List Char → List Char → List (List Char)
  | '\r' :: cs, cur => cur.reverse :: splitCRAux cs []
  | c :: cs, cur => splitCRAux cs (c :: cur)
  | [], cur => [cur.reverse]

/-- Python `s.split('\r')` as a `String` function. -/
def pySplitCR (s : String) : List String :=
  (splitCRAux s.data []).map String.mk

/-! ## Output parsers (`kafka/actions/consumer_groups.py`) -/

/-- `split_kafka_output` (consumer_groups.py, lines 116-129):
`output.split('\r\n')`. -/
def split_kafka_output (output : String) : List String :=
  (splitCRLFAux output.data []).map String.mk

/-- Does this character list start with the five characters `GROUP`? -/
def startsWithGROUP : List Char → Bool
  | 'G' :: 'R' :: 'O' :: 'U' :: 'P' :: _ => true
  | _ => false

/-- First suffix at which the marker `GROUP` occurs, if any
(Python `response.find("GROUP")` followed by slicing). -/
def findGROUP : List Char → Option (List Char)
  | [] => none
  | c :: cs => if startsWithGROUP (c :: cs) then some (c :: cs) else findGROUP cs

/-- `clean_up_response` (consumer_groups.py, lines 198-208): drop everything
before the first occurrence of `"GROUP"`; if the marker is absent return the
response unchanged. -/
def clean_up_response (response : String) : String :=
  match findGROUP response.data with
  | some suffix => String.mk suffix
  | none => response

/-- One `{topic, lag}` row of the lag table. -/
structure TopicLag where
  topic : String
  lag : Int
deriving Repr, DecidableEq

/-- The `for line in lines[1:]` loop of `extract_lag_values`
(consumer_groups.py, lines 216-221), with the body's exception behaviour:
the surrounding `try` wraps the whole loop, so when `int(columns[5])` raises
on some line the accumulated `lag_values` are returned and all later lines
are abandoned. -/
def extract_lag_lines : List String → List TopicLag → List TopicLag
  | [], acc => acc
  | line :: rest, acc =>
    let columns := pySplitWS (pyStrip line)
    if h : 7 ≤ columns.length then
      let topic := columns.get ⟨1, by omega⟩
      match pyParseInt (columns.get ⟨5, by omega⟩) with
      | some lag => extract_lag_lines rest (acc ++ [⟨topic, lag⟩])
      | none => acc
    else extract_lag_lines rest acc

/-- `extract_lag_values` (consumer_groups.py, lines 210-226): strip the
cleaned response, split it on `'\r'`, skip the header line, and extract the
`{topic, lag}` rows. -/
def extract_lag_values (cleaned_response : String) : List TopicLag :=
  let lines := pySplitCR (pyStrip cleaned_response)
  extract_lag_lines (lines.drop 1) []

/-- The spec's `extractLagTable`: how `get_lag_of_kafka_consumer_group`
composes the two parser helpers (consumer_groups.py, lines 272-275). -/
def extractLagTable (text : String) : List TopicLag :=
  extract_lag_values (clean_up_response text)

/-! ## Job client (`kafka/actions/jobs.py`)

The HTTP transport (`http_wrapper`, not among the sources) is modelled by
oracle fields: each remote call is an `Except String _` — `.error e` for the
call raising an exception with text `e`, `.ok v` for its decoded value. -/

/-- `JobStatusResponse` (jobs.py, lines 36-39). -/
structure JobStatusResponse where
  status : String
  message : String
  build_logs : Option String := none
deriving Repr, DecidableEq

/-- `str(e)` of the pydantic v1 ValidationError raised by
`JobStatusResponse(status=None, ...)` (the `status: str` field rejects
`None`). -/
def statusNoneValidationError : String :=
  "1 validation error for JobStatusResponse: none is not an allowed value (status)"

/-- `get_job_status` (jobs.py, lines 50-70).  `fetch` is the outcome of
`get_wrapper(endpoint)["result"]`: `.error e` if the call raises, otherwise
the JSON `result` field, which is either a string or `null` (`none`).  The
whole body sits in a `try`: a transport error is caught and returned as
`status=""` with the error text; a `null` result makes the
`JobStatusResponse` constructor raise inside the `try`, which is caught by
the same handler. -/
def get_job_status (fetch : Except String (Option String)) : JobStatusResponse :=
  match fetch with
  | .error e => { status := "", message := e }
  | .ok none => { status := "", message := statusNoneValidationError }
  | .ok (some status) =>
    if status = "SUCCESS" ∨ status = "FAILURE" then
      { status := status, message := "Job status: " ++ status }
    else
      { status := status, message := "Job is in progress." }

/-- Oracle for one `wait_for_job_completion` run: the transport outcome of
the `i`-th status poll, the wall-clock seconds that poll consumes, and the
outcome of the single console-logs fetch performed after a terminal status
(`.error` also covers the `BuildConsoleLogsRequest` constructor raising on a
non-numeric build number). -/
structure WaitEnv where
  fetch : Nat → Except String (Option String)
  pollDur : Nat → Nat
  logsFetch : Except String String

/-- jobs.py, line 89. -/
def timeout_message : String :=
  "Timeout reached while waiting for job completion."

/-- jobs.py, line 93. -/
def retries_message : String :=
  "Exceeded maximum number of retries while waiting for job completion."

/-- The `while True` loop of `wait_for_job_completion` (jobs.py, lines
84-102).  `elapsed` is `time.time() - start_time` at the top of the loop,
`polls` is the code's `retries` counter, and `fuel` is `max_retries -
retries`, so `fuel = 0` is exactly the code's `retries >= max_retries` exit;
the timeout check comes first, as in the code.  Each iteration advances the
clock by the poll's duration plus the 5-second `time.sleep`.  The second
component is the clock value at the moment the loop returns. -/
def wait_aux (env : WaitEnv) : Nat → Nat → Nat → Except String JobStatusResponse × Nat
  | elapsed, _, 0 =>
    if elapsed > 300 then (.ok { status := "", message := timeout_message }, elapsed)
    else (.ok { status := "", message := retries_message }, elapsed)
  | elapsed, polls, fuel + 1 =>
    if elapsed > 300 then (.ok { status := "", message := timeout_message }, elapsed)
    else
      let job_status := get_job_status (env.fetch polls)
      let elapsed2 := elapsed + env.pollDur polls
      if job_status.status = "SUCCESS" ∨ job_status.status = "FAILURE" then
        match env.logsFetch with
        | .error e => (.error e, elapsed2)
        | .ok logs =>
          (.ok { status := job_status.status, message := job_status.message,
                 build_logs := some logs }, elapsed2)
      else wait_aux env (elapsed2 + 5) (polls + 1) fuel

/-- `wait_for_job_completion` (jobs.py, lines 75-102): `max_retries = 10`,
`retry_delay = 5`, `timeout = 300`.  `.error` models the uncaught exception
of the console-logs fetch escaping the function. -/
def wait_for_job_completion (env : WaitEnv) : Except String JobStatusResponse :=
  (wait_aux env 0 0 10).1

/-- Wall-clock seconds elapsed when `wait_for_job_completion` returns. -/
def wait_exit_time (env : WaitEnv) : Nat :=
  (wait_aux env 0 0 10).2

/-- Decoded body of one queue-item poll (`get_wrapper_full_response
(queue_location)`): HTTP status code and the `executable.number` field when
present. -/
structure QueueResp where
  status_code : Nat
  executable : Option Nat
deriving Repr, DecidableEq

/-- Decoded response of the trigger POST (`post_wrapper_full_response`):
HTTP status code and the `Location` header. -/
structure PostResp where
  status_code : Nat
  location : Option String
deriving Repr, DecidableEq

/-- Oracle for one `trigger_job` run: outcome of the POST, of the `i`-th
queue poll, and of the `i`-th fallback query of the job's build list (the
`builds` JSON array as a list of build numbers; an absent or empty `builds`
key is the empty list). -/
structure TriggerEnv where
  post : Except String PostResp
  queue : Nat → Except String QueueResp
  latest : Nat → Except String (List Nat)

/-- The `for _ in range(10)` loop of `get_build_number_from_queue` (jobs.py,
lines 105-117), instrumented with the number of queue polls performed so the
abandon-on-404 behaviour can be stated: `i` is the index of the next poll
and `fuel` the remaining attempts.  A 200 response with an `executable`
field yields its number; a 404 breaks out of the loop at once; anything else
sleeps 2 seconds and retries.  An exception from the poll propagates. -/
def queue_loop (q : Nat → Except String QueueResp) : Nat → Nat → Except String (Option Nat × Nat)
  | i, 0 => .ok (none, i)
  | i, fuel + 1 =>
    match q i with
    | .error e => .error e
    | .ok resp =>
      if resp.status_code = 200 then
        match resp.executable with
        | some n => .ok (some n, i + 1)
        | none => queue_loop q (i + 1) fuel
      else if resp.status_code = 404 then .ok (none, i + 1)
      else queue_loop q (i + 1) fuel

/-- `get_build_number_from_queue` (jobs.py, lines 105-117), returning also
the number of queue polls performed. -/
def get_build_number_from_queue (q : Nat → Except String QueueResp) :
    Except String (Option Nat × Nat) :=
  queue_loop q 0 10

/-- `get_latest_build_number` (jobs.py, lines 120-126): first entry of the
job's `builds` array, if any. -/
def get_latest_build_number (resp : Except String (List Nat)) : Except String (Option Nat) :=
  match resp with
  | .error e => .error e
  | .ok builds => .ok builds.head?

/-- The `while build_number is None and retry_count > 0` fallback loop of
`trigger_job` (jobs.py, lines 149-155): `retry_count = 5`, 10-second delay;
`i` indexes the fallback attempts. -/
def fallback_loop (latest : Nat → Except String (List Nat)) :
    Option Nat → Nat → Nat → Except String (Option Nat)
  | bn, _, 0 => .ok bn
  | some b, _, _ + 1 => .ok (some b)
  | none, i, fuel + 1 =>
    match get_latest_build_number (latest i) with
    | .error e => .error e
    | .ok bn2 => fallback_loop latest bn2 (i + 1) fuel

/-- `TriggerJobResponse` (jobs.py, lines 27-30); `build_number` is declared
`Optional[str]` and receives an `int` coerced by pydantic to its decimal
string, modelled here as `Option Nat`. -/
structure TriggerJobResponse where
  success : Bool
  message : String
  build_number : Option Nat
deriving Repr, DecidableEq

/-- `trigger_job` (jobs.py, lines 129-165).  The body sits in a `try` whose
handler returns `success=False` with the exception text, so exceptions from
the POST, the queue polls or the fallback queries become failure responses. -/
def trigger_job (env : TriggerEnv) : TriggerJobResponse :=
  match env.post with
  | .error e => { success := false, message := e, build_number := none }
  | .ok response =>
    if response.status_code ≠ 201 then
      { success := false,
        message := "Unexpected response status code: " ++ toString response.status_code,
        build_number := none }
    else
      match response.location with
      | none =>
        { success := false, message := "Queue location not found in response headers.",
          build_number := none }
      | some _ =>
        match get_build_number_from_queue env.queue with
        | .error e => { success := false, message := e, build_number := none }
        | .ok (bn, _) =>
          match fallback_loop env.latest bn 0 5 with
          | .error e => { success := false, message := e, build_number := none }
          | .ok (some b) =>
            { success := true, message := "Job triggered successfully.", build_number := some b }
          | .ok none =>
            { success := false, message := "Failed to retrieve build number after retries.",
              build_number := none }

/-! ## Domain actions -/

/-- Oracle for one domain-action invocation: the trigger oracle, the wait
oracle, and the outcome of `get_artifact` (jobs.py, lines 179-187 — a single
unretried GET returning the raw body text, `.error` if it raises). -/
structure DomainEnv where
  trig : TriggerEnv
  wait : WaitEnv
  artifact : Except String String

/-- `BuildParams` (jobs.py, lines 12-14); `build_number` is declared `str`
and in the actions receives the `Optional[str]` build number of a
`TriggerJobResponse`. -/
structure BuildParams where
  job_name : String
  build_number : Nat
deriving Repr, DecidableEq

/-- `str(e)` of the pydantic v1 ValidationError raised by
`BuildParams(build_number=None)` (the `build_number: str` field rejects
`None`). -/
def buildNumberNoneValidationError : String :=
  "1 validation error for BuildParams: none is not an allowed value (build_number)"

/-- Constructing a `BuildParams` from a trigger response's build number:
pydantic raises when the build number is `None`, and coerces the number
otherwise. -/
def mkBuildParams (job_name : String) : Option Nat → Except String BuildParams
  | none => .error buildNumberNoneValidationError
  | some b => .ok { job_name := job_name, build_number := b }

/-- `f"{response}"` on a pydantic v1 `JobStatusResponse`, as interpolated
into failure messages. -/
def jobStatusResponseStr (w : JobStatusResponse) : String :=
  "status='" ++ w.status ++ "' message='" ++ w.message ++ "' build_logs=" ++
    (match w.build_logs with
     | none => "None"
     | some logs => "'" ++ logs ++ "'")

/-- `ListKafkaConsumerGroupsResponse` (consumer_groups.py, lines 111-113):
`consumer_groups` is declared `List[str]`. -/
structure ListKafkaConsumerGroupsResponse where
  consumer_groups : List String
  success : Bool
deriving Repr, DecidableEq

/-- `str(e)` of the pydantic v1 ValidationError raised when
`ListKafkaConsumerGroupsResponse` is given a `str` for its
`consumer_groups: List[str]` field (pydantic v1 does not coerce a string
into a list). -/
def consumerGroupsStrValidationError : String :=
  "1 validation error for ListKafkaConsumerGroupsResponse: value is not a valid list (consumer_groups)"

/-- `list_kafka_consumer_groups` (consumer_groups.py, lines 132-182).

Every failure branch of this action passes a `str` for the
`consumer_groups: List[str]` field, so its `return` raises a
ValidationError; the outer `except` (line 180) then does the same (line
182), and that second ValidationError escapes the action.  In detail:

* the trigger stage cannot raise (`trigger_job` catches everything), so the
  `except` at line 156 is dead;
* when the trigger failed, `consumer_group_job.build_number` is `None` and
  the `BuildParams` construction (line 160) raises; the bare `except:` at
  line 162 then hits `NameError` (`e` is unbound there), which the outer
  handler turns into the escaping ValidationError — likewise when
  `wait_for_job_completion` raises;
* a non-`"SUCCESS"` status (line 166), an artifact-fetch exception (line
  172) and an empty artifact (line 178) each construct with a `str`,
  raising a ValidationError that reaches the outer handler the same way.

Only the full success path returns normally. -/
def list_kafka_consumer_groups (env : DomainEnv) :
    Except String ListKafkaConsumerGroupsResponse :=
  let consumer_group_job := trigger_job env.trig
  match mkBuildParams "kafka_list_consumer_groups" consumer_group_job.build_number with
  | .error _ => .error consumerGroupsStrValidationError
  | .ok _ =>
    match wait_for_job_completion env.wait with
    | .error _ => .error consumerGroupsStrValidationError
    | .ok wait_response =>
      if wait_response.status ≠ "SUCCESS" then .error consumerGroupsStrValidationError
      else
        match env.artifact with
        | .error _ => .error consumerGroupsStrValidationError
        | .ok artifact =>
          if artifact = "" then .error consumerGroupsStrValidationError
          else .ok { consumer_groups := split_kafka_output artifact, success := true }

/-- `ListKafkaTopicsResponse` (topics.py, lines 113-115): `topics` is
declared `str`. -/
structure ListKafkaTopicsResponse where
  topics : String
  success : Bool
deriving Repr, DecidableEq

/-- `list_kafka_topics` (topics.py, lines 118-160).  All branches assign a
`str` to `topics`, so construction never raises here; stage exceptions are
caught by the per-stage handlers (and the trigger stage cannot raise).  The
successful response carries the raw artifact text, unsplit. -/
def list_kafka_topics (env : DomainEnv) : ListKafkaTopicsResponse :=
  let topic_job := trigger_job env.trig
  match mkBuildParams "kafka_list_topics" topic_job.build_number with
  | .error e => { topics := "Error waiting for job completion: " ++ e, success := false }
  | .ok _ =>
    match wait_for_job_completion env.wait with
    | .error e => { topics := "Error waiting for job completion: " ++ e, success := false }
    | .ok wait_response =>
      if wait_response.status ≠ "SUCCESS" then
        { topics := "Jenkins job failed. No matching topics found", success := false }
      else
        match env.artifact with
        | .error e => { topics := "Error getting describe artifact: " ++ e, success := false }
        | .ok artifact =>
          if artifact = "" then { topics := "No artifact response found.", success := false }
          else { topics := artifact, success := true }

/-- `DescribeKafkaTopicRequest` (topics.py, lines 10-20). -/
structure DescribeKafkaTopicRequest where
  topic_name : String
deriving Repr, DecidableEq

/-- `DescribeKafkaTopicResponse` (topics.py, lines 22-24). -/
structure DescribeKafkaTopicResponse where
  artifact : String
  success : Bool
deriving Repr, DecidableEq

/-- `describe_kafka_topic` (topics.py, lines 26-100): trigger the
`kafka_describe_topic` job, wait, and on success fetch `output.txt`; every
stage failure is caught and becomes a `success=False` response.  The
request's `topic_name` only feeds the job's query parameters, which the
trigger oracle absorbs. -/
def describe_kafka_topic (env : DomainEnv) (_request : DescribeKafkaTopicRequest) :
    DescribeKafkaTopicResponse :=
  let describe_topic_job := trigger_job env.trig
  match mkBuildParams "kafka_describe_topic" describe_topic_job.build_number with
  | .error e =>
    { artifact := "Error waiting for describe job completion: " ++ e, success := false }
  | .ok _ =>
    match wait_for_job_completion env.wait with
    | .error e =>
      { artifact := "Error waiting for describe job completion: " ++ e, success := false }
    | .ok wait_response =>
      if wait_response.status ≠ "SUCCESS" then
        { artifact := "Jenkins job failed: Possibly no match for your topic. " ++
            jobStatusResponseStr wait_response, success := false }
      else
        match env.artifact with
        | .error e => { artifact := "Error getting describe artifact: " ++ e, success := false }
        | .ok artifact =>
          if artifact = "" then { artifact := "No artifact response found.", success := false }
          else { artifact := artifact, success := true }

/-- `number_of_partitions_in_kafka_topic` (topics.py, lines 162-165):
rebuilds the request from its `topic_name` and delegates to
`describe_kafka_topic`. -/
def number_of_partitions_in_kafka_topic (env : DomainEnv)
    (request : DescribeKafkaTopicRequest) : DescribeKafkaTopicResponse :=
  let request2 : DescribeKafkaTopicRequest := { topic_name := request.topic_name }
  describe_kafka_topic env request2

/-- `replication_factor_of_kafka_topic` (topics.py, lines 167-170). -/
def replication_factor_of_kafka_topic (env : DomainEnv)
    (request : DescribeKafkaTopicRequest) : DescribeKafkaTopicResponse :=
  let request2 : DescribeKafkaTopicRequest := { topic_name := request.topic_name }
  describe_kafka_topic env request2

/-- `leader_and_replicas_for_kafka_topic` (topics.py, lines 172-175). -/
def leader_and_replicas_for_kafka_topic (env : DomainEnv)
    (request : DescribeKafkaTopicRequest) : DescribeKafkaTopicResponse :=
  let request2 : DescribeKafkaTopicRequest := { topic_name := request.topic_name }
  describe_kafka_topic env request2

/-! ## Cloud-health actions (`cloud_health/actions/specific.py`) -/

/-- `ProductionCloudHealthRequest` (specific.py, lines 9-10). -/
structure ProductionCloudHealthRequest where
  cloud_location : String
deriving Repr, DecidableEq

/-- `ProductionCloudHealthResponse` (specific.py, lines 12-13). -/
structure ProductionCloudHealthResponse where
  cloud_link : String
deriving Repr, DecidableEq

/-- The pydantic v1 validation of `cloud_location:
constr(regex='^(gamma|kappa)$')`: pydantic calls `re.match`, and Python's
`$` (without `re.MULTILINE`) matches at the end of the string or just
before a single trailing newline, so exactly these four strings are
accepted. -/
def production_location_ok (s : String) : Bool :=
  s = "gamma" || s = "kappa" || s = "gamma\n" || s = "kappa\n"

/-- The framework's validate-then-construct step for
`ProductionCloudHealthRequest`: `none` models the pydantic
ValidationError. -/
def mkProductionCloudHealthRequest (s : String) : Option ProductionCloudHealthRequest :=
  if production_location_ok s then some { cloud_location := s } else none

/-- `production_cloud_health` (specific.py, lines 15-20): `none` models the
function falling off the end (Python's implicit `None`) when neither branch
matches. -/
def production_cloud_health (request : ProductionCloudHealthRequest) :
    Option ProductionCloudHealthResponse :=
  if request.cloud_location = "gamma" then
    some { cloud_link := "https://grafana.sso.plumenet.io/d/gamma-mocha-and-pytests/mocha-and-pytests" }
  else if request.cloud_location = "kappa" then
    some { cloud_link := "https://grafana.sso.plumenet.io/d/kappa-mocha-and-pytests/mocha-and-pytests" }
  else none

/-- Validation composed with the handler: `none` = rejected by validation,
`some none` = validated but the function returned `None`, `some (some r)` =
a response. -/
def production_cloud_health_action (s : String) :
    Option (Option ProductionCloudHealthResponse) :=
  (mkProductionCloudHealthRequest s).map production_cloud_health

/-- `DevelopmentCloudHealthRequest` (specific.py, lines 24-25). -/
structure DevelopmentCloudHealthRequest where
  cloud_location : String
deriving Repr, DecidableEq

/-- `DevelopmentCloudHealthResponse` (specific.py, lines 27-28). -/
structure DevelopmentCloudHealthResponse where
  cloud_link : String
deriving Repr, DecidableEq

/-- pydantic v1 `re.match` validation of
`constr(regex='^(dogfood|opensync|osync|thetadev|ci|func4)$')`, with the
same trailing-newline behaviour of `$` as in `production_location_ok`. -/
def development_location_ok (s : String) : Bool :=
  s = "dogfood" || s = "opensync" || s = "osync" || s = "thetadev" || s = "ci" || s = "func4" ||
  s = "dogfood\n" || s = "opensync\n" || s = "osync\n" || s = "thetadev\n" || s = "ci\n" ||
  s = "func4\n"

/-- Validate-then-construct for `DevelopmentCloudHealthRequest`. -/
def mkDevelopmentCloudHealthRequest (s : String) : Option DevelopmentCloudHealthRequest :=
  if development_location_ok s then some { cloud_location := s } else none

/-- `development_cloud_health` (specific.py, lines 31-44). -/
def development_cloud_health (request : DevelopmentCloudHealthRequest) :
    Option DevelopmentCloudHealthResponse :=
  if request.cloud_location = "dogfood" then
    some { cloud_link := "https://grafana.sso.plume.tech/d/dogfood-mocha-and-pytests/mocha-and-pytests" }
  else if request.cloud_location = "opensync" then
    some { cloud_link := "https://grafana.sso.plume.tech/d/opensync-mocha-and-pytests/mocha-and-pytests" }
  else if request.cloud_location = "osync" then
    some { cloud_link := "https://grafana.sso.plume.tech/d/osync-mocha-and-pytests/mocha-and-pytests" }
  else if request.cloud_location = "thetadev" then
    some { cloud_link := "https://grafana.sso.plume.tech/d/thetadev-mocha-and-pytests/mocha-and-pytests" }
  else if request.cloud_location = "ci" then
    some { cloud_link := "https://grafana.sso.plume.tech/d/ci-mocha-and-pytests/mocha-and-pytests" }
  else if request.cloud_location = "func4" then
    some { cloud_link := "https://grafana.sso.plume.tech/d/func4-mocha-and-pytests/mocha-and-pytests" }
  else none

/-- Validate-then-construct composed with the handler for the development
action. -/
def development_cloud_health_action (s : String) :
    Option (Option DevelopmentCloudHealthResponse) :=
  (mkDevelopmentCloudHealthRequest s).map development_cloud_health

/-! ## Concrete oracles used by witnesses and counterexamples -/

/-- A wait oracle whose status polls always fail at the transport level, so
the remote job never reaches a terminal state; polls consume no wall-clock
time. -/
def waitEnvStuck : WaitEnv :=
  { fetch := fun _ => .error "connection refused", pollDur := fun _ => 0,
    logsFetch := .ok "" }

/-- A trigger oracle for the happy path: POST accepted with a queue
location, first queue poll already carries `executable: 7`. -/
def goodTriggerEnv : TriggerEnv :=
  { post := .ok { status_code := 201, location := some "queue/item/1" },
    queue := fun _ => .ok { status_code := 200, executable := some 7 },
    latest := fun _ => .ok [] }

/-- A wait oracle for the happy path: the first poll reports `SUCCESS` and
the console-logs fetch succeeds. -/
def goodWaitEnv : WaitEnv :=
  { fetch := fun _ => .ok (some "SUCCESS"), pollDur := fun _ => 0,
    logsFetch := .ok "build logs" }

/-- A fully successful domain-action invocation whose artifact is
`"a\r\nb"`. -/
def goodDomainEnv : DomainEnv :=
  { trig := goodTriggerEnv, wait := goodWaitEnv, artifact := .ok "a\r\nb" }

/-- A trigger oracle whose POST is answered with status 400, so the trigger
stage fails and no build number exists. -/
def failedTriggerEnv : TriggerEnv :=
  { post := .ok { status_code := 400, location := none },
    queue := fun _ => .ok { status_code := 404, executable := none },
    latest := fun _ => .ok [] }

/-- A domain-action invocation whose trigger stage failed. -/
def failedDomainEnv : DomainEnv :=
  { trig := failedTriggerEnv, wait := goodWaitEnv, artifact := .ok "a" }

/-- A trigger oracle where the queue item 404s on the very first poll and
the job's build list reports build 42. -/
def queue404TriggerEnv : TriggerEnv :=
  { post := .ok { status_code := 201, location := some "queue/item/2" },
    queue := fun _ => .ok { status_code := 404, executable := none },
    latest := fun _ => .ok [42] }

/-! ## Claim theorems -/

/-- C1, counterexample: on the claim's input, column index 5 (0-based) of
the data row `"G1 topicA 0 c h 5 3"` holds `"5"`, not `"3"`, so
`extractLagTable` does not return the claimed `[{topic: "topicA", lag: 3}]`. -/
theorem extractLagTable_example_counterexample :
    extractLagTable "noise\nGROUP TOPIC P CID H O LAG\rG1 topicA 0 c h 5 3\r..." ≠
      [{ topic := "topicA", lag := 3 }] := by
  decide

/-- C1 (amended): on the claim's input, `extractLagTable` skips the
preamble before `GROUP`, skips the header row, drops the 1-column line
`"..."`, and returns the one-element sequence `[{topic: "topicA", lag: 5}]`
— column index 1 of the whitespace-split data row is `"topicA"` and column
index 5 is `"5"`. -/
theorem extractLagTable_example_amended :
    extractLagTable "noise\nGROUP TOPIC P CID H O LAG\rG1 topicA 0 c h 5 3\r..." =
      [{ topic := "topicA", lag := 5 }] ∧
    pySplitWS (pyStrip "G1 topicA 0 c h 5 3") =
      ["G1", "topicA", "0", "c", "h", "5", "3"] := by
  decide

/-- C2, counterexample: a line with at least 7 columns whose column index 5
is not an integer aborts the extraction of all later lines — the
well-formed line `"G2 t2 0 c h 5 9"` contributes its entry when it stands
alone but contributes nothing when the failing line `"G1 t1 0 c h x 7"`
precedes it. -/
theorem extract_lag_abort_counterexample :
    extract_lag_values "GROUP TOPIC P CID H O LAG\rG1 t1 0 c h x 7\rG2 t2 0 c h 5 9" = [] ∧
    extract_lag_values "GROUP TOPIC P CID H O LAG\rG2 t2 0 c h 5 9" =
      [{ topic := "t2", lag := 5 }] := by
  decide

/-- C2 (amended): a parse failure is caught at whole-extraction
granularity: a line with at least 7 whitespace-delimited columns whose
column index 5 does not parse as an integer makes the loop stop, the
function returns exactly the entries collected from the lines before the
failing line (later lines contribute nothing), and the extraction never
raises. -/
theorem extract_lag_abort_amended (pre suf : List String) (bad : String) (acc : List TopicLag)
    (h7 : 7 ≤ (pySplitWS (pyStrip bad)).length)
    (hfail : ∀ h : 5 < (pySplitWS (pyStrip bad)).length,
      pyParseInt ((pySplitWS (pyStrip bad)).get ⟨5, h⟩) = none) :
    extract_lag_lines (pre ++ bad :: suf) acc = extract_lag_lines pre acc := by
  induction pre generalizing acc with
  | nil =>
    simp only [List.nil_append]
    rw [extract_lag_lines, extract_lag_lines]
    rw [dif_pos h7, hfail (by omega)]
  | cons l pre ih =>
    simp only [List.cons_append]
    rw [extract_lag_lines, extract_lag_lines]
    by_cases hl : 7 ≤ (pySplitWS (pyStrip l)).length
    · rw [dif_pos hl, dif_pos hl]
      rcases hp : pyParseInt ((pySplitWS (pyStrip l)).get ⟨5, by omega⟩) with _ | lag
      · rfl
      · exact ih _
    · rw [dif_neg hl, dif_neg hl]
      exact ih _

/-- C2 witness: a concrete failing line between two well-formed lines. -/
theorem extract_lag_abort_amended_witness :
    extract_lag_lines (["G1 t1 0 c h 5 3"] ++ "G2 t2 0 c h x 9" :: ["G3 t3 0 c h 5 4"]) [] =
      extract_lag_lines ["G1 t1 0 c h 5 3"] [] :=
  extract_lag_abort_amended ["G1 t1 0 c h 5 3"] ["G3 t3 0 c h 5 4"] "G2 t2 0 c h x 9" []
    (by decide) (fun _ => rfl)

/-- C3: `list_kafka_consumer_groups` does not return a structured
`success=false` response on a stage failure — with the trigger POST
answered 400 the trigger fails, `build_number` is `None`, and the action
raises a pydantic ValidationError (a `str` is assigned to the
`consumer_groups: List[str]` field) instead of returning. -/
theorem list_consumer_groups_raises_on_failure :
    list_kafka_consumer_groups failedDomainEnv = .error consumerGroupsStrValidationError ∧
    trigger_job failedTriggerEnv =
      { success := false, message := "Unexpected response status code: 400",
        build_number := none } :=
  ⟨rfl, rfl⟩

/-- C4, counterexample: on a transport failure `get_job_status` returns the
error text as message but its status is the empty string, not `"UNKNOWN"`. -/
theorem get_job_status_unknown_counterexample :
    (get_job_status (.error "connection refused")).status = "" ∧
    (get_job_status (.error "connection refused")).status ≠ "UNKNOWN" ∧
    (get_job_status (.error "connection refused")).message = "connection refused" := by
  decide

/-- C4 (amended): `get_job_status` never raises; a string result outside
{SUCCESS, FAILURE} is returned as the status with the in-progress message;
SUCCESS and FAILURE are reported as terminal; a transport failure is caught
and returned with status `""` (the code's stand-in for UNKNOWN) and the
error text as message; a `null` result also yields status `""` (via the
caught response-validation error). -/
theorem get_job_status_amended (e r : String)
    (hr : r ≠ "SUCCESS" ∧ r ≠ "FAILURE") :
    get_job_status (.error e) = { status := "", message := e } ∧
    get_job_status (.ok (some r)) = { status := r, message := "Job is in progress." } ∧
    get_job_status (.ok (some "SUCCESS")) =
      { status := "SUCCESS", message := "Job status: SUCCESS" } ∧
    get_job_status (.ok (some "FAILURE")) =
      { status := "FAILURE", message := "Job status: FAILURE" } ∧
    (get_job_status (.ok none)).status = "" := by
  refine ⟨rfl, ?_, by decide, by decide, rfl⟩
  simp [get_job_status, hr.1, hr.2]

/-- C4 witness: concrete transport failure and concrete non-terminal
result. -/
theorem get_job_status_amended_witness :
    get_job_status (.error "boom") = { status := "", message := "boom" } ∧
    get_job_status (.ok (some "RUNNING")) =
      { status := "RUNNING", message := "Job is in progress." } ∧
    get_job_status (.ok (some "SUCCESS")) =
      { status := "SUCCESS", message := "Job status: SUCCESS" } ∧
    get_job_status (.ok (some "FAILURE")) =
      { status := "FAILURE", message := "Job status: FAILURE" } ∧
    (get_job_status (.ok none)).status = "" :=
  get_job_status_amended "boom" "RUNNING" ⟨by decide, by decide⟩

/-- The status returned for a successfully fetched string result is that
string (both branches of the terminal test assign it unchanged). -/
theorem get_job_status_ok_some_status (s : String) :
    (get_job_status (.ok (some s))).status = s := by
  simp only [get_job_status]
  split <;> rfl

/-- A poll whose transport outcome is not a terminal result never yields a
terminal status. -/
theorem get_job_status_not_terminal (f : Except String (Option String))
    (h1 : f ≠ .ok (some "SUCCESS")) (h2 : f ≠ .ok (some "FAILURE")) :
    ¬((get_job_status f).status = "SUCCESS" ∨ (get_job_status f).status = "FAILURE") := by
  rcases f with e | o
  · rintro (h | h) <;> simp [get_job_status] at h
  · rcases o with _ | s
    · rintro (h | h) <;> simp [get_job_status, statusNoneValidationError] at h
    · rw [get_job_status_ok_some_status]
      rintro (h | h)
      · exact h1 (by rw [h])
      · exact h2 (by rw [h])

/-- When no poll ever reports a terminal result, the wait loop returns
normally with an empty status and one of the two abort messages. -/
theorem wait_aux_stuck (env : WaitEnv)
    (hnt : ∀ i, env.fetch i ≠ .ok (some "SUCCESS") ∧ env.fetch i ≠ .ok (some "FAILURE")) :
    ∀ fuel elapsed polls, ∃ m t,
      wait_aux env elapsed polls fuel = (.ok { status := "", message := m }, t) ∧
      (m = timeout_message ∨ m = retries_message) := by
  intro fuel
  induction fuel with
  | zero =>
    intro elapsed polls
    by_cases h : elapsed > 300
    · exact ⟨timeout_message, elapsed, by rw [wait_aux, if_pos h], Or.inl rfl⟩
    · exact ⟨retries_message, elapsed, by rw [wait_aux, if_neg h], Or.inr rfl⟩
  | succ fuel ih =>
    intro elapsed polls
    by_cases h : elapsed > 300
    · exact ⟨timeout_message, elapsed, by rw [wait_aux, if_pos h], Or.inl rfl⟩
    · have hterm := get_job_status_not_terminal (env.fetch polls) (hnt polls).1 (hnt polls).2
      obtain ⟨m, t, heq, hm⟩ := ih (elapsed + env.pollDur polls + 5) (polls + 1)
      refine ⟨m, t, ?_, hm⟩
      rw [wait_aux, if_neg h]
      dsimp only
      rw [if_neg hterm]
      exact heq

/-- The clock value at which the wait loop returns never exceeds the
300-second timeout plus one poll duration plus one 5-second sleep. -/
theorem wait_aux_time (env : WaitEnv) (d : Nat) (hd : ∀ i, env.pollDur i ≤ d) :
    ∀ fuel elapsed polls, elapsed ≤ 300 + d + 5 →
      (wait_aux env elapsed polls fuel).2 ≤ 300 + d + 5 := by
  intro fuel
  induction fuel with
  | zero =>
    intro elapsed polls he
    rw [wait_aux]
    split <;> exact he
  | succ fuel ih =>
    intro elapsed polls he
    rw [wait_aux]
    by_cases h : elapsed > 300
    · rw [if_pos h]
      exact he
    · rw [if_neg h]
      dsimp only
      by_cases hterm : (get_job_status (env.fetch polls)).status = "SUCCESS" ∨
          (get_job_status (env.fetch polls)).status = "FAILURE"
      · rw [if_pos hterm]
        have hpd := hd polls
        cases hlf : env.logsFetch <;> simp only [hlf] <;> omega
      · rw [if_neg hterm]
        exact ih (elapsed + env.pollDur polls + 5) (polls + 1) (by have := hd polls; omega)

/-- C5: `wait_for_job_completion` always terminates.  When the remote job
never reaches a terminal state it returns (rather than raising or looping)
a `JobStatusResponse` with status `""` and one of two distinct messages,
one for the 300-second wall-clock timeout and one for exhaustion of the 10
polling attempts (5-second cadence); and whenever every status poll takes
at most `d` seconds, the loop exits by wall-clock time `300 + d + 5` —
timeout plus one poll interval when polls are instantaneous. -/
theorem wait_for_job_completion_bounded (env : WaitEnv) (d : Nat)
    (hnt : ∀ i, env.fetch i ≠ .ok (some "SUCCESS") ∧ env.fetch i ≠ .ok (some "FAILURE"))
    (hd : ∀ i, env.pollDur i ≤ d) :
    ∃ r, wait_for_job_completion env = .ok r ∧ r.status = "" ∧
      (r.message = timeout_message ∨ r.message = retries_message) ∧
      timeout_message ≠ retries_message ∧
      wait_exit_time env ≤ 300 + d + 5 := by
  obtain ⟨m, t, heq, hm⟩ := wait_aux_stuck env hnt 10 0 0
  refine ⟨{ status := "", message := m }, ?_, rfl, hm, by decide, ?_⟩
  · unfold wait_for_job_completion
    rw [heq]
  · unfold wait_exit_time
    exact wait_aux_time env d hd 10 0 0 (by omega)

/-- C5 witness: a job whose status polls always fail at the transport level
(so it never reaches a terminal state), with instantaneous polls. -/
theorem wait_for_job_completion_bounded_witness :
    ∃ r, wait_for_job_completion waitEnvStuck = .ok r ∧ r.status = "" ∧
      (r.message = timeout_message ∨ r.message = retries_message) ∧
      timeout_message ≠ retries_message ∧
      wait_exit_time waitEnvStuck ≤ 300 + 0 + 5 :=
  wait_for_job_completion_bounded waitEnvStuck 0
    (fun _ => ⟨by simp [waitEnvStuck], by simp [waitEnvStuck]⟩)
    (fun _ => by simp [waitEnvStuck])

/-- C6: when the queue-item resource reports 404 on the very first poll,
queue resolution stops after that single poll with no build number, and
`trigger_job` falls through to the latest-build fallback: it succeeds with
the fallback's build number when one is found, and returns the
failed-to-retrieve-build-number failure only when the fallback also yields
nothing. -/
theorem trigger_queue_404_falls_through (env : TriggerEnv) (loc : String) (q0 : QueueResp)
    (hpost : env.post = .ok { status_code := 201, location := some loc })
    (hq : env.queue 0 = .ok q0) (h404 : q0.status_code = 404) :
    get_build_number_from_queue env.queue = .ok (none, 1) ∧
    (∀ b, fallback_loop env.latest none 0 5 = .ok (some b) →
      trigger_job env =
        { success := true, message := "Job triggered successfully.",
          build_number := some b }) ∧
    (fallback_loop env.latest none 0 5 = .ok none →
      trigger_job env =
        { success := false, message := "Failed to retrieve build number after retries.",
          build_number := none }) := by
  have hqloop : get_build_number_from_queue env.queue = .ok (none, 1) := by
    unfold get_build_number_from_queue
    rw [queue_loop, hq]
    simp [h404]
  refine ⟨hqloop, ?_, ?_⟩
  · intro b hfb
    simp [trigger_job, hpost, hqloop, hfb]
  · intro hfb
    simp [trigger_job, hpost, hqloop, hfb]

/-- C6 witness: a queue that 404s immediately and a build list whose most
recent build is 42. -/
theorem trigger_queue_404_falls_through_witness :
    get_build_number_from_queue queue404TriggerEnv.queue = .ok (none, 1) ∧
    (∀ b, fallback_loop queue404TriggerEnv.latest none 0 5 = .ok (some b) →
      trigger_job queue404TriggerEnv =
        { success := true, message := "Job triggered successfully.",
          build_number := some b }) ∧
    (fallback_loop queue404TriggerEnv.latest none 0 5 = .ok none →
      trigger_job queue404TriggerEnv =
        { success := false, message := "Failed to retrieve build number after retries.",
          build_number := none }) :=
  trigger_queue_404_falls_through queue404TriggerEnv "queue/item/2"
    { status_code := 404, executable := none } rfl rfl rfl

/-- C7: every `TriggerJobResponse` produced by `trigger_job`, under every
remote behaviour including exceptions, carries a build number exactly when
it succeeded: `success = false` implies `build_number = none`, and
`success = true` implies the build number is present. -/
theorem trigger_job_build_number_invariant (env : TriggerEnv) :
    ((trigger_job env).success = false → (trigger_job env).build_number = none) ∧
    ((trigger_job env).success = true → ∃ b, (trigger_job env).build_number = some b) := by
  unfold trigger_job
  split
  · simp
  · split
    · simp
    · split
      · simp
      · split
        · simp
        · split
          · simp
          · simp
          · simp

/-- C8, counterexample: on a fully successful invocation whose artifact is
`"a\r\nb"`, the list-topics action returns the raw artifact text as its
body, not the CRLF-split line sequence that `split_kafka_output` produces. -/
theorem list_topics_raw_counterexample :
    (list_kafka_topics goodDomainEnv).success = true ∧
    (list_kafka_topics goodDomainEnv).topics = "a\r\nb" ∧
    split_kafka_output "a\r\nb" = ["a", "b"] ∧
    (["a", "b"] : List String) ≠ ["a\r\nb"] := by
  decide

/-- C8 (amended): on every successful invocation the consumer-groups
listing body is exactly `split_kafka_output` of the raw artifact text —
split on the literal CRLF sequence with no trimming, deduplication or
filtering (`split_kafka_output "a\r\nb\r\nc" = ["a","b","c"]` and
`split_kafka_output "" = [""]`) — while the topics listing returns the raw
artifact text unsplit, as a single string. -/
theorem split_lines_amended (env : DomainEnv) (bn : Nat) (w : JobStatusResponse) (a : String)
    (hb : (trigger_job env.trig).build_number = some bn)
    (hw : wait_for_job_completion env.wait = .ok w)
    (hs : w.status = "SUCCESS")
    (ha : env.artifact = .ok a) (hne : a ≠ "") :
    list_kafka_consumer_groups env =
      .ok { consumer_groups := split_kafka_output a, success := true } ∧
    list_kafka_topics env = { topics := a, success := true } ∧
    split_kafka_output "a\r\nb\r\nc" = ["a", "b", "c"] ∧
    split_kafka_output "" = [""] := by
  have hmk : ∀ name, mkBuildParams name (trigger_job env.trig).build_number =
      .ok { job_name := name, build_number := bn } := by
    intro name
    rw [hb]
    rfl
  refine ⟨?_, ?_, by decide, by decide⟩
  · unfold list_kafka_consumer_groups
    dsimp only
    rw [hmk "kafka_list_consumer_groups", hw, ha]
    simp [hs, hne]
  · unfold list_kafka_topics
    dsimp only
    rw [hmk "kafka_list_topics", hw, ha]
    simp [hs, hne]

/-- C8 witness: the fully successful invocation with artifact `"a\r\nb"`. -/
theorem split_lines_amended_witness :
    list_kafka_consumer_groups goodDomainEnv =
      .ok { consumer_groups := split_kafka_output "a\r\nb", success := true } ∧
    list_kafka_topics goodDomainEnv = { topics := "a\r\nb", success := true } ∧
    split_kafka_output "a\r\nb\r\nc" = ["a", "b", "c"] ∧
    split_kafka_output "" = [""] :=
  split_lines_amended goodDomainEnv 7
    { status := "SUCCESS", message := "Job status: SUCCESS", build_logs := some "build logs" }
    "a\r\nb" rfl rfl rfl rfl (by decide)

/-- C9, counterexample: `"gamma\n"` lies outside the allowed set
{gamma, kappa} yet passes the `constr(regex='^(gamma|kappa)$')` validation
(pydantic v1 uses `re.match`, and `$` matches before a trailing newline),
and `production_cloud_health` then returns `None` rather than any
response — the value is not rejected as a validation failure. -/
theorem cloud_health_newline_counterexample :
    ("gamma\n" ≠ "gamma" ∧ "gamma\n" ≠ "kappa") ∧
    mkProductionCloudHealthRequest "gamma\n" = some { cloud_location := "gamma\n" } ∧
    production_cloud_health { cloud_location := "gamma\n" } = none := by
  decide

/-- C9 (amended): `production_cloud_health` maps `"gamma"` and `"kappa"` to
their fixed dashboard URLs; every value the anchored regex rejects — every
string outside {gamma, kappa} and their single-trailing-newline variants —
is rejected by validation before any response is constructed, while the
trailing-newline variants pass validation and make the handler return
`None`; the analogous statements hold for `development_cloud_health` over
its six locations. -/
theorem cloud_health_amended (s t : String)
    (hs : production_location_ok s = false)
    (ht : development_location_ok t = false) :
    production_cloud_health_action s = none ∧
    development_cloud_health_action t = none ∧
    production_cloud_health_action "gamma" = some (some
      { cloud_link := "https://grafana.sso.plumenet.io/d/gamma-mocha-and-pytests/mocha-and-pytests" }) ∧
    production_cloud_health_action "kappa" = some (some
      { cloud_link := "https://grafana.sso.plumenet.io/d/kappa-mocha-and-pytests/mocha-and-pytests" }) ∧
    development_cloud_health_action "dogfood" = some (some
      { cloud_link := "https://grafana.sso.plume.tech/d/dogfood-mocha-and-pytests/mocha-and-pytests" }) ∧
    development_cloud_health_action "opensync" = some (some
      { cloud_link := "https://grafana.sso.plume.tech/d/opensync-mocha-and-pytests/mocha-and-pytests" }) ∧
    development_cloud_health_action "osync" = some (some
      { cloud_link := "https://grafana.sso.plume.tech/d/osync-mocha-and-pytests/mocha-and-pytests" }) ∧
    development_cloud_health_action "thetadev" = some (some
      { cloud_link := "https://grafana.sso.plume.tech/d/thetadev-mocha-and-pytests/mocha-and-pytests" }) ∧
    development_cloud_health_action "ci" = some (some
      { cloud_link := "https://grafana.sso.plume.tech/d/ci-mocha-and-pytests/mocha-and-pytests" }) ∧
    development_cloud_health_action "func4" = some (some
      { cloud_link := "https://grafana.sso.plume.tech/d/func4-mocha-and-pytests/mocha-and-pytests" }) ∧
    production_cloud_health_action "gamma\n" = some none ∧
    development_cloud_health_action "dogfood\n" = some none := by
  refine ⟨?_, ?_, by decide, by decide, by decide, by decide, by decide, by decide,
    by decide, by decide, by decide, by decide⟩
  · simp [production_cloud_health_action, mkProductionCloudHealthRequest, hs]
  · simp [development_cloud_health_action, mkDevelopmentCloudHealthRequest, ht]

/-- C9 witness: a concrete location outside both allowed sets. -/
theorem cloud_health_amended_witness :
    production_cloud_health_action "staging" = none ∧
    development_cloud_health_action "staging" = none ∧
    production_cloud_health_action "gamma" = some (some
      { cloud_link := "https://grafana.sso.plumenet.io/d/gamma-mocha-and-pytests/mocha-and-pytests" }) ∧
    production_cloud_health_action "kappa" = some (some
      { cloud_link := "https://grafana.sso.plumenet.io/d/kappa-mocha-and-pytests/mocha-and-pytests" }) ∧
    development_cloud_health_action "dogfood" = some (some
      { cloud_link := "https://grafana.sso.plume.tech/d/dogfood-mocha-and-pytests/mocha-and-pytests" }) ∧
    development_cloud_health_action "opensync" = some (some
      { cloud_link := "https://grafana.sso.plume.tech/d/opensync-mocha-and-pytests/mocha-and-pytests" }) ∧
    development_cloud_health_action "osync" = some (some
      { cloud_link := "https://grafana.sso.plume.tech/d/osync-mocha-and-pytests/mocha-and-pytests" }) ∧
    development_cloud_health_action "thetadev" = some (some
      { cloud_link := "https://grafana.sso.plume.tech/d/thetadev-mocha-and-pytests/mocha-and-pytests" }) ∧
    development_cloud_health_action "ci" = some (some
      { cloud_link := "https://grafana.sso.plume.tech/d/ci-mocha-and-pytests/mocha-and-pytests" }) ∧
    development_cloud_health_action "func4" = some (some
      { cloud_link := "https://grafana.sso.plume.tech/d/func4-mocha-and-pytests/mocha-and-pytests" }) ∧
    production_cloud_health_action "gamma\n" = some none ∧
    development_cloud_health_action "dogfood\n" = some none :=
  cloud_health_amended "staging" "staging" (by decide) (by decide)

/-- C10: the three specialised topic actions are extensionally equal to
`describe_kafka_topic`: for every oracle and every request they return
exactly the response of `describe_kafka_topic` on the same request. -/
theorem topic_alias_actions_eq_describe (env : DomainEnv)
    (request : DescribeKafkaTopicRequest) :
    number_of_partitions_in_kafka_topic env request = describe_kafka_topic env request ∧
    replication_factor_of_kafka_topic env request = describe_kafka_topic env request ∧
    leader_and_replicas_for_kafka_topic env request = describe_kafka_topic env request :=
  ⟨rfl, rfl, rfl⟩

end PlumeActionStores
